import Mathlib

/-!
A verification development for the task-runner utility module (`tasksB.py`).
We shallowly embed the sandbox guard `B12` (built on CPython's
`posixpath.normpath` / `posixpath.abspath` / `posixpath.join`) and the task
functions `B3`–`B9` as pure Lean functions.  Stateful behaviour (the current
working directory, responses from external services, environment variables)
is made explicit as parameters, and each task returns both its result
(success value or raised Python exception) and the ordered list of external
effects it performed.

Python string primitives (`str.startswith`, `str.endswith`, `str.split`,
`'/'.join`) are embedded as structurally recursive functions on `List Char`
so that every definition evaluates by kernel reduction.
-/

namespace TasksB

/-- Python `s.startswith(pre)`. -/
def strStartsWith (s pre : String) : Bool :=
  List.isPrefixOf pre.toList s.toList

/-- Python `s.endswith(suf)`. -/
def strEndsWith (s suf : String) : Bool :=
  List.isSuffixOf suf.toList s.toList

/-- Python `s.split(sep)` for a single-character separator, on char lists:
`splitSlash "a/b" = ["a","b"]`, `splitSlash "" = [""]`. -/
def splitSlash : List Char → List (List Char)
  | [] => [[]]
  | c :: cs =>
    match splitSlash cs with
    | [] => [[]]
    | h :: t => if c = '/' then [] :: h :: t else (c :: h) :: t

/-- Python `'/'.join(comps)` on char lists. -/
def joinSlash : List (List Char) → List Char
  | [] => []
  | [x] => x
  | x :: y :: xs => x ++ '/' :: joinSlash (y :: xs)

/-- CPython `posixpath.normpath`: collapse `.` and empty segments, resolve
`..` against previous components, preserve one or two initial slashes. -/
def normpath (path : String) : String :=
  if path.toList = [] then "." else
  let initialSlashes : Nat :=
    if strStartsWith path "/" then
      if strStartsWith path "//" ∧ ¬ strStartsWith path "///" then 2 else 1
    else 0
  let comps := splitSlash path.toList
  let newComps := comps.foldl (fun acc comp =>
    if comp = ([] : List Char) ∨ comp = ['.'] then acc
    else if comp ≠ ['.', '.'] ∨ (initialSlashes = 0 ∧ acc = [])
            ∨ (acc ≠ [] ∧ acc.getLast? = some ['.', '.']) then acc ++ [comp]
    else if acc ≠ [] then acc.dropLast
    else acc) []
  let out := List.replicate initialSlashes '/' ++ joinSlash newComps
  if out = [] then "." else String.mk out

/-- CPython `posixpath.isabs`. -/
def isabs (p : String) : Bool := strStartsWith p "/"

/-- CPython `posixpath.join` specialised to two arguments, as used by
`abspath` on a non-absolute path. -/
def posixJoin (a b : String) : String :=
  if strStartsWith b "/" then b
  else if a.toList = [] ∨ strEndsWith a "/" then String.mk (a.toList ++ b.toList)
  else String.mk (a.toList ++ '/' :: b.toList)

/-- CPython `posixpath.abspath`: join a relative path onto the current
working directory `cwd` (the value `os.getcwd()` would return), then
normalize. -/
def abspath (cwd path : String) : String :=
  if ¬ isabs path then normpath (posixJoin cwd path)
  else normpath path

/-- `tasksB.B12`: the sandbox guard.  Returns whether
`os.path.abspath(filepath)` starts — as a raw string — with
`os.path.abspath('/data')`. -/
def B12 (cwd filepath : String) : Bool :=
  let normalized := abspath cwd filepath
  let allowed_dir := abspath cwd "/data"
  strStartsWith normalized allowed_dir

/-- The path segments of a path string: its nonempty `/`-separated
components. -/
def pathSegments (p : String) : List (List Char) :=
  (splitSlash p.toList).filter (fun s => s ≠ [])

/-- Modelled from the spec (§4.1, §8): the *segment-wise* guard the
specification describes — true iff the segments of the normalized absolute
form of the candidate start with the sandbox root's segments (equal to the
root or nested under it as a directory component).  This is the spec-side
definition, to be compared with the source's `B12`. -/
def specSegmentGuard (cwd p : String) : Bool :=
  List.isPrefixOf (pathSegments "/data") (pathSegments (abspath cwd p))

/-- Python exceptions the module can raise. -/
inductive PyErr
  /-- `PermissionError("Access outside /data is not allowed.")` -/
  | permissionError
  /-- `requests.HTTPError` from `response.raise_for_status()`; carries the status. -/
  | httpError (status : Nat)
  /-- `subprocess.CalledProcessError` from `subprocess.run(..., check=True)`. -/
  | calledProcessError
  /-- a database error raised by `cursor.execute` on malformed SQL. -/
  | operationalError
  /-- `ValueError("OPENAI_API_KEY is not set in the environment variables.")` -/
  | valueError
deriving DecidableEq

/-- Which database engine a `B5` call connects with. -/
inductive Engine
  | sqlite
  | duckdb
deriving DecidableEq

/-- Observable external effects a task performs, in order. -/
inductive Effect
  | httpGet (url : String)
  | fileWrite (path content : String)
  | fileReadText (path : String)
  | fileReadBin (path : String)
  | subproc (args : List String)
  | dbOpen (engine : Engine) (path : String)
  | dbExec (query : String)
  | transcribeCall (whisperModel : String)
  | imageOpen (path : String)
  | imageResize (w h : Nat)
  | imageSave (path : String)
  | printNotice (msg : String)
deriving DecidableEq

/-- The outcome of a task call: the returned value or raised exception,
together with the ordered external effects performed before returning or
raising. -/
structure Outcome (α : Type) where
  result : Except PyErr α
  effects : List Effect

/-- An HTTP response as `requests.get` returns it. -/
structure HttpResponse where
  status : Nat
  text : String

/-- `response.raise_for_status()` raises `HTTPError` iff `400 ≤ status < 600`. -/
def raiseForStatusFails (resp : HttpResponse) : Prop :=
  400 ≤ resp.status ∧ resp.status < 600

instance (resp : HttpResponse) : Decidable (raiseForStatusFails resp) :=
  inferInstanceAs (Decidable (400 ≤ resp.status ∧ resp.status < 600))

/-- `tasksB.B3`: fetch `url`, save the response text to `save_path`.
`resp` is the response the HTTP client returns for `url`. -/
def B3 (cwd url save_path : String) (resp : HttpResponse) : Outcome Unit :=
  if !(B12 cwd save_path) then ⟨.error .permissionError, []⟩
  else if raiseForStatusFails resp then
    ⟨.error (.httpError resp.status), [.httpGet url]⟩
  else
    ⟨.ok (), [.httpGet url,
      .fileWrite save_path resp.text,
      .printNotice ("Data fetched from " ++ url ++ " and saved to " ++ save_path)]⟩

/-- `tasksB.B4`: clone `repo_url` into `clone_dir` (source default
`'/data/repo'`), write a dummy file, stage and commit.  The three exit
codes are what the three `subprocess.run` calls would return; `check=True`
raises on the first non-zero one. -/
def B4 (cwd repo_url commit_message clone_dir : String)
    (cloneExit addExit commitExit : Nat) : Outcome Unit :=
  if !(B12 cwd clone_dir) then ⟨.error .permissionError, []⟩
  else if cloneExit ≠ 0 then
    ⟨.error .calledProcessError, [.subproc ["git", "clone", repo_url, clone_dir]]⟩
  else
    let dummy_file := posixJoin clone_dir "dummy.txt"
    if addExit ≠ 0 then
      ⟨.error .calledProcessError,
        [.subproc ["git", "clone", repo_url, clone_dir],
         .fileWrite dummy_file "This is a dummy commit.\n",
         .subproc ["git", "-C", clone_dir, "add", "."]]⟩
    else if commitExit ≠ 0 then
      ⟨.error .calledProcessError,
        [.subproc ["git", "clone", repo_url, clone_dir],
         .fileWrite dummy_file "This is a dummy commit.\n",
         .subproc ["git", "-C", clone_dir, "add", "."],
         .subproc ["git", "-C", clone_dir, "commit", "-m", commit_message]]⟩
    else
      ⟨.ok (),
        [.subproc ["git", "clone", repo_url, clone_dir],
         .fileWrite dummy_file "This is a dummy commit.\n",
         .subproc ["git", "-C", clone_dir, "add", "."],
         .subproc ["git", "-C", clone_dir, "commit", "-m", commit_message],
         .printNotice ("Repository cloned from " ++ repo_url ++ " into " ++ clone_dir
           ++ " and commit made.")]⟩

/-- `tasksB.B5`: run `query` against the database at `db_path` — SQLite when
the path ends in `.db`, DuckDB otherwise — write the stringified rows to
`output_filename` and return the rows.  `dbResult` is what
`cursor.execute(query); cursor.fetchall()` would produce (rows, or a raised
database error); `serializeRows` models Python's `str(result)`. -/
def B5 (cwd db_path query output_filename : String)
    (dbResult : Except PyErr (List String)) (serializeRows : List String → String) :
    Outcome (List String) :=
  if !(B12 cwd db_path) || !(B12 cwd output_filename) then ⟨.error .permissionError, []⟩
  else
    let engine := if strEndsWith db_path ".db" then Engine.sqlite else Engine.duckdb
    match dbResult with
    | .error e => ⟨.error e, [.dbOpen engine db_path, .dbExec query]⟩
    | .ok rows =>
      ⟨.ok rows, [.dbOpen engine db_path, .dbExec query,
        .fileWrite output_filename (serializeRows rows),
        .printNotice ("SQL query executed on " ++ db_path ++ " and results written to "
          ++ output_filename)]⟩

/-- `tasksB.B6`: scrape `url` and save `requests.get(url).text` to
`output_filename`.  The source never calls `raise_for_status`, so the body
is written whatever the status is. -/
def B6 (cwd url output_filename : String) (resp : HttpResponse) : Outcome Unit :=
  if !(B12 cwd output_filename) then ⟨.error .permissionError, []⟩
  else
    ⟨.ok (), [.httpGet url,
      .fileWrite output_filename resp.text,
      .printNotice ("Web content from " ++ url ++ " written to " ++ output_filename)]⟩

/-- `tasksB.B7`: open the image, optionally resize, save it. -/
def B7 (cwd image_path output_path : String) (resize : Option (Nat × Nat)) : Outcome Unit :=
  if !(B12 cwd image_path) || !(B12 cwd output_path) then ⟨.error .permissionError, []⟩
  else
    match resize with
    | some (w, h) =>
      ⟨.ok (), [.imageOpen image_path, .imageResize w h, .imageSave output_path,
        .printNotice ("Image processed from " ++ image_path ++ " and saved to "
          ++ output_path)]⟩
    | none =>
      ⟨.ok (), [.imageOpen image_path, .imageSave output_path,
        .printNotice ("Image processed from " ++ image_path ++ " and saved to "
          ++ output_path)]⟩

/-- `tasksB.B8`: transcribe the audio at `audio_path` with the Whisper API
and save the text.  `env` is the process environment (`os.environ.get`);
`transcriptText` is the optional `'text'` field of the service's response
(`transcript.get('text', '')`). -/
def B8 (cwd audio_path output_path : String) (env : String → Option String)
    (transcriptText : Option String) : Outcome String :=
  if !(B12 cwd audio_path) || !(B12 cwd output_path) then ⟨.error .permissionError, []⟩
  else
    match env "OPENAI_API_KEY" with
    | none => ⟨.error .valueError, []⟩
    | some _ =>
      let transcription_text := transcriptText.getD ""
      ⟨.ok transcription_text,
        [.fileReadBin audio_path, .transcribeCall "whisper-1",
         .fileWrite output_path transcription_text,
         .printNotice ("Audio from " ++ audio_path ++ " transcribed and saved to "
           ++ output_path)]⟩

/-- `tasksB.B9`: convert the Markdown at `md_path` to HTML and save it.
`mdContent` is the file's text; `mdToHtml` models the external
`markdown.markdown` renderer. -/
def B9 (cwd md_path output_path : String) (mdContent : String)
    (mdToHtml : String → String) : Outcome Unit :=
  if !(B12 cwd md_path) || !(B12 cwd output_path) then ⟨.error .permissionError, []⟩
  else
    ⟨.ok (), [.fileReadText md_path,
      .fileWrite output_path (mdToHtml mdContent),
      .printNotice ("Markdown from " ++ md_path ++ " converted to HTML and saved to "
        ++ output_path)]⟩

/-- C1: the claim says `B12` is true iff the segment-wise normalized form of
the candidate starts with the sandbox root's segments.  It is not: `B12`
compares raw strings, so the sibling path `/database` is accepted while the
segment-wise guard of the spec rejects it.  The code contradicts its own
docstring ("within '/data'"). -/
theorem C1_guard_is_raw_string_not_segment_wise :
    B12 "/" "/database" = true ∧ specSegmentGuard "/" "/database" = false := by
  decide

/-- C2: the claim says `B12 "/data" = true` and `B12 "/database" = false`.
The first half holds, but the sibling `/database` is ALSO accepted, because
the source compares raw strings with `startswith`. -/
theorem C2_sibling_directory_also_accepted :
    B12 "/" "/data" = true ∧ B12 "/" "/database" = true := by
  decide

/-- C3: every task raises `PermissionError` immediately and performs no
external effect (no file I/O, network, subprocess or database access) when a
path argument fails the guard `B12`. -/
theorem C3_guard_failure_blocks_all_tasks :
    (∀ cwd url sp resp, B12 cwd sp = false →
        (B3 cwd url sp resp).result = Except.error PyErr.permissionError
        ∧ (B3 cwd url sp resp).effects = [])
    ∧ (∀ cwd ru cm cd e1 e2 e3, B12 cwd cd = false →
        (B4 cwd ru cm cd e1 e2 e3).result = Except.error PyErr.permissionError
        ∧ (B4 cwd ru cm cd e1 e2 e3).effects = [])
    ∧ (∀ cwd db q out dbr sr, B12 cwd db = false ∨ B12 cwd out = false →
        (B5 cwd db q out dbr sr).result = Except.error PyErr.permissionError
        ∧ (B5 cwd db q out dbr sr).effects = [])
    ∧ (∀ cwd url out resp, B12 cwd out = false →
        (B6 cwd url out resp).result = Except.error PyErr.permissionError
        ∧ (B6 cwd url out resp).effects = [])
    ∧ (∀ cwd ip op rz, B12 cwd ip = false ∨ B12 cwd op = false →
        (B7 cwd ip op rz).result = Except.error PyErr.permissionError
        ∧ (B7 cwd ip op rz).effects = [])
    ∧ (∀ cwd ap op env tt, B12 cwd ap = false ∨ B12 cwd op = false →
        (B8 cwd ap op env tt).result = Except.error PyErr.permissionError
        ∧ (B8 cwd ap op env tt).effects = [])
    ∧ (∀ cwd mp op mc f, B12 cwd mp = false ∨ B12 cwd op = false →
        (B9 cwd mp op mc f).result = Except.error PyErr.permissionError
        ∧ (B9 cwd mp op mc f).effects = []) := by
  refine ⟨?_, ?_, ?_, ?_, ?_, ?_, ?_⟩
  · intro cwd url sp resp h
    simp [B3, h]
  · intro cwd ru cm cd e1 e2 e3 h
    simp [B4, h]
  · intro cwd db q out dbr sr h
    rcases h with h | h <;> simp [B5, h]
  · intro cwd url out resp h
    simp [B6, h]
  · intro cwd ip op rz h
    rcases h with h | h <;> simp [B7, h]
  · intro cwd ap op env tt h
    rcases h with h | h <;> simp [B8, h]
  · intro cwd mp op mc f h
    rcases h with h | h <;> simp [B9, h]

/-- Witness for C3: concrete guard-failing calls of all seven tasks. -/
theorem C3_guard_failure_blocks_all_tasks_witness :
    (B3 "/" "u" "/etc/x" ⟨200, "t"⟩).effects = []
    ∧ (B4 "/" "r" "m" "/etc/x" 0 0 0).effects = []
    ∧ (B5 "/" "/etc/x" "q" "/data/o" (Except.ok []) (fun _ => "[]")).effects = []
    ∧ (B6 "/" "u" "/etc/x" ⟨200, "t"⟩).effects = []
    ∧ (B7 "/" "/etc/x" "/data/o" none).effects = []
    ∧ (B8 "/" "/etc/x" "/data/o" (fun _ => none) none).effects = []
    ∧ (B9 "/" "/etc/x" "/data/o" "" (fun s => s)).effects = [] := by
  have h := C3_guard_failure_blocks_all_tasks
  exact ⟨(h.1 "/" "u" "/etc/x" ⟨200, "t"⟩ (by decide)).2,
    (h.2.1 "/" "r" "m" "/etc/x" 0 0 0 (by decide)).2,
    (h.2.2.1 "/" "/etc/x" "q" "/data/o" (Except.ok []) (fun _ => "[]") (Or.inl (by decide))).2,
    (h.2.2.2.1 "/" "u" "/etc/x" ⟨200, "t"⟩ (by decide)).2,
    (h.2.2.2.2.1 "/" "/etc/x" "/data/o" none (Or.inl (by decide))).2,
    (h.2.2.2.2.2.1 "/" "/etc/x" "/data/o" (fun _ => none) none (Or.inl (by decide))).2,
    (h.2.2.2.2.2.2 "/" "/etc/x" "/data/o" "" (fun s => s) (Or.inl (by decide))).2⟩

/-- C4: `..` segments are normalized away by `os.path.abspath` before the
containment check, so `/data/../etc/passwd` is rejected whatever the current
working directory is. -/
theorem C4_dotdot_traversal_rejected :
    ∀ cwd, B12 cwd "/data/../etc/passwd" = false := by
  intro cwd
  have h1 : isabs "/data/../etc/passwd" = true := by decide
  have h2 : isabs "/data" = true := by decide
  simp [B12, abspath, h1, h2]
  decide

/-- C5 counterexample: on a 404 response, `B6` does NOT propagate an error —
it returns normally and writes the body to the output file, because the
source never calls `raise_for_status`. -/
theorem C5_scrape_writes_body_on_http_failure :
    (B6 "/" "u" "/data/out" ⟨404, "body"⟩).result = Except.ok ()
    ∧ Effect.fileWrite "/data/out" "body" ∈ (B6 "/" "u" "/data/out" ⟨404, "body"⟩).effects := by
  exact ⟨rfl, by decide⟩

/-- C5 amended: for a guard-passing output path, `B6` succeeds and writes
the response body verbatim regardless of the HTTP status. -/
theorem C5_amended_scrape_ignores_status :
    ∀ cwd url out resp, B12 cwd out = true →
      (B6 cwd url out resp).result = Except.ok ()
      ∧ (B6 cwd url out resp).effects =
        [Effect.httpGet url, Effect.fileWrite out resp.text,
         Effect.printNotice ("Web content from " ++ url ++ " written to " ++ out)] := by
  intro cwd url out resp h
  simp [B6, h]

/-- Witness for the amended C5: a concrete 404 response is still written. -/
theorem C5_amended_scrape_ignores_status_witness :
    (B6 "/" "u" "/data/out" ⟨404, "body"⟩).effects =
      [Effect.httpGet "u", Effect.fileWrite "/data/out" "body",
       Effect.printNotice "Web content from u written to /data/out"] := by
  exact (C5_amended_scrape_ignores_status "/" "u" "/data/out" ⟨404, "body"⟩ (by decide)).2

/-- C6: `B5` dispatches on the `db_path` suffix — `.db` opens SQLite,
anything else opens DuckDB — and returns the raw rows. -/
theorem C6_sql_engine_dispatch :
    ∀ cwd db q out rows sr, B12 cwd db = true → B12 cwd out = true →
      (strEndsWith db ".db" = true →
        Effect.dbOpen Engine.sqlite db ∈ (B5 cwd db q out (Except.ok rows) sr).effects)
      ∧ (strEndsWith db ".db" = false →
        Effect.dbOpen Engine.duckdb db ∈ (B5 cwd db q out (Except.ok rows) sr).effects)
      ∧ (B5 cwd db q out (Except.ok rows) sr).result = Except.ok rows := by
  intro cwd db q out rows sr h1 h2
  refine ⟨fun he => ?_, fun he => ?_, ?_⟩
  · simp [B5, h1, h2, he]
  · simp [B5, h1, h2, he]
  · simp [B5, h1, h2]

/-- Witness for C6: `/data/foo.db` goes to SQLite, `/data/foo.duckdb` goes
to DuckDB. -/
theorem C6_sql_engine_dispatch_witness :
    Effect.dbOpen Engine.sqlite "/data/foo.db"
      ∈ (B5 "/" "/data/foo.db" "q" "/data/o" (Except.ok ["r"]) (fun _ => "s")).effects
    ∧ Effect.dbOpen Engine.duckdb "/data/foo.duckdb"
      ∈ (B5 "/" "/data/foo.duckdb" "q" "/data/o" (Except.ok ["r"]) (fun _ => "s")).effects := by
  exact ⟨(C6_sql_engine_dispatch "/" "/data/foo.db" "q" "/data/o" ["r"] (fun _ => "s")
      (by decide) (by decide)).1 (by decide),
    (C6_sql_engine_dispatch "/" "/data/foo.duckdb" "q" "/data/o" ["r"] (fun _ => "s")
      (by decide) (by decide)).2.1 (by decide)⟩

/-- C7: with guard-passing paths and no `OPENAI_API_KEY` in the
environment, `B8` raises `ValueError` having performed no effect at all —
in particular the audio file is never read. -/
theorem C7_transcribe_missing_key_before_read :
    ∀ cwd ap op env tt, B12 cwd ap = true → B12 cwd op = true →
      env "OPENAI_API_KEY" = none →
      (B8 cwd ap op env tt).result = Except.error PyErr.valueError
      ∧ (B8 cwd ap op env tt).effects = [] := by
  intro cwd ap op env tt h1 h2 hk
  simp [B8, h1, h2, hk]

/-- Witness for C7: concrete sandboxed paths, empty environment. -/
theorem C7_transcribe_missing_key_before_read_witness :
    (B8 "/" "/data/a.mp3" "/data/t.txt" (fun _ => none) none).effects = [] := by
  exact (C7_transcribe_missing_key_before_read "/" "/data/a.mp3" "/data/t.txt"
    (fun _ => none) none (by decide) (by decide) rfl).2

/-- C8: for a guard-passing `save_path`, `B3` raises `HTTPError` on a
failure status (`raise_for_status` semantics: `400 ≤ status < 600`) and
writes nothing; on a success status it writes the response body verbatim. -/
theorem C8_fetch_error_on_failure_write_on_success :
    ∀ cwd url sp resp, B12 cwd sp = true →
      (raiseForStatusFails resp →
        (B3 cwd url sp resp).result = Except.error (PyErr.httpError resp.status)
        ∧ ∀ p c, Effect.fileWrite p c ∉ (B3 cwd url sp resp).effects)
      ∧ (¬ raiseForStatusFails resp →
        (B3 cwd url sp resp).result = Except.ok ()
        ∧ (B3 cwd url sp resp).effects =
          [Effect.httpGet url, Effect.fileWrite sp resp.text,
           Effect.printNotice ("Data fetched from " ++ url ++ " and saved to " ++ sp)]) := by
  intro cwd url sp resp h
  refine ⟨fun hf => ?_, fun hf => ?_⟩
  · simp [B3, h, hf]
  · simp [B3, h, hf]

/-- Witness for C8: a concrete 404 is an error with no write; a concrete
200 writes the body. -/
theorem C8_fetch_error_on_failure_write_on_success_witness :
    (B3 "/" "u" "/data/f" ⟨404, "t"⟩).result = Except.error (PyErr.httpError 404)
    ∧ (B3 "/" "u" "/data/f" ⟨200, "t"⟩).effects =
      [Effect.httpGet "u", Effect.fileWrite "/data/f" "t",
       Effect.printNotice "Data fetched from u and saved to /data/f"] := by
  exact ⟨((C8_fetch_error_on_failure_write_on_success "/" "u" "/data/f" ⟨404, "t"⟩
      (by decide)).1 (by decide)).1,
    ((C8_fetch_error_on_failure_write_on_success "/" "u" "/data/f" ⟨200, "t"⟩
      (by decide)).2 (by decide)).2⟩

/-- C9 counterexample: the claim says a malformed input yields `false`.  A
path consisting of a single NUL byte is malformed for a filesystem, yet when
the current working directory is `/data` the guard normalizes it to
`/data/<NUL>` and returns `true`. -/
theorem C9_malformed_nul_path_accepted :
    B12 "/data" "\x00" = true := by
  decide

/-- C9 amended: the guard is total — it returns a boolean for every string
input and never raises — but malformed inputs are not specially mapped to
`false`: they undergo the same normalization and can yield `true`, e.g. the
NUL-byte path with working directory `/data`. -/
theorem C9_amended_guard_total_not_false_on_malformed :
    (∀ cwd p, B12 cwd p = true ∨ B12 cwd p = false)
    ∧ B12 "/data" "\x00" = true := by
  refine ⟨fun cwd p => ?_, by decide⟩
  cases h : B12 cwd p
  · exact Or.inr rfl
  · exact Or.inl rfl

/-- C10: the guard's verdict on a relative path depends on the current
working directory — the same string `file.txt` is accepted from `/data` and
rejected from `/tmp` — so `B12` is not a function of its path argument
alone. -/
theorem C10_relative_path_depends_on_cwd :
    B12 "/data" "file.txt" = true ∧ B12 "/tmp" "file.txt" = false := by
  decide

end TasksB
